import Mathlib

/-
  Verification of the editorjs-voice tool against its specification.

  Shallow embedding of:
  - src/recorder.js            (class Recorder: media-capture state machine)
  - src/ui.js / ui module      (class Ui: widget visual states)
  - index.js module            (class VoiceRecord: controller gluing recorder,
                                 uploader and UI, and persisting block data)

  Conventions of the embedding:
  - JS instance fields become fields of an explicit state record; each method
    becomes a function `State -> inputs -> State × List Event`, where the event
    list records the collaborator callbacks the method fired, in order.
  - Promise chains in this code resolve deterministically once the outcome of
    the single external effect (microphone acquisition via getUserMedia) is
    fixed; that outcome is passed in as an `Acquire` value.
  - Platform `MediaRecorder` objects are modelled by their `state` field
    (inactive / recording / paused), the only part the source reads.
  - Binary chunks (Blob slices) are modelled as byte lists `List Nat`;
    `e.data.size` is the list length, Blob concatenation is `List.join`.
-/

namespace VoiceTool

/-! ### Recorder (src/recorder.js) -/

/-- Platform MediaRecorder states: `inactive`, `recording`, `paused`. -/
inductive MRState
  | inactive
  | recording
  | paused
deriving DecidableEq, Repr

/-- The slice of a platform MediaRecorder the source reads: its `state`. -/
structure MRec where
  state : MRState
deriving DecidableEq, Repr

/-- A binary object with a MIME tag, as built by `new Blob(chunks, type)`. -/
structure Blob where
  data : List Nat
  type : String
deriving DecidableEq, Repr

/-- Instance fields of class Recorder (src/recorder.js, constructor):
`mediaStream` and `mediaRecorder` start `null`, `timer` at 0,
`recordedChunks` empty, `timeslice` fixed to 1000. The stream handle is an
opaque id. -/
structure RecorderState where
  mediaStream : Option Nat
  mediaRecorder : Option MRec
  timer : Nat
  recordedChunks : List (List Nat)
  timeslice : Nat
deriving DecidableEq, Repr

/-- State set up by the Recorder constructor. -/
def initialRecorder : RecorderState :=
  { mediaStream := none
    mediaRecorder := none
    timer := 0
    recordedChunks := []
    timeslice := 1000 }

/-- Collaborator callbacks the Recorder fires (constructor parameters
`onError`, `onStarted`, `onStopped`, `onTogglePaused`, `onUpdateTimer`). -/
inductive REvent
  | error (msg : String)
  | started
  | stopped (blob : Blob)
  | togglePaused (isPaused : Bool)
  | updateTimer (val : String)
deriving DecidableEq, Repr

/-- Outcome of the platform getUserMedia request: a granted stream handle,
a rejection with an error, or a platform without `navigator.mediaDevices`. -/
inductive Acquire
  | granted (streamId : Nat)
  | denied (err : String)
  | unsupported
deriving DecidableEq, Repr

/-- The `zeroPad` helper inside `addTimer`:
`String(num).padStart(places, '0')`. -/
def zeroPad (num : Nat) (places : Nat) : String :=
  let s := toString num
  String.mk (List.replicate (places - s.length) '0') ++ s

/-- The timer string computed by `addTimer` from the current `this.timer`
value. The recorder only ever adds slices of 0 or 1000 ms, so `this.timer`
is always a multiple of 1000 and the JS float divisions coincide with Nat
division. -/
def formatTimer (timer : Nat) : String :=
  let allSeconds := timer / 1000
  let minutes := allSeconds / 60
  let seconds := allSeconds % 60
  zeroPad minutes 2 ++ ":" ++ zeroPad seconds 2

/-- Method `addTimer(timeslice)`: advances `this.timer` and fires
`onUpdateTimer` with the formatted string. -/
def addTimer (st : RecorderState) (slice : Nat) : RecorderState × List REvent :=
  let st' := { st with timer := st.timer + slice }
  (st', [REvent.updateTimer (formatTimer st'.timer)])

/-- Method `getMediaStream()`: resolves with the cached stream, or asks the
platform; on failure fires `onError` once and rejects (third component
`none`). -/
def getMediaStream (st : RecorderState) (env : Acquire) :
    RecorderState × List REvent × Option Nat :=
  match st.mediaStream with
  | some s => (st, [], some s)
  | none =>
    match env with
    | Acquire.granted i => ({ st with mediaStream := some i }, [], some i)
    | Acquire.denied err =>
        (st, [REvent.error ("The following getUserMedia error occurred: " ++ err)], none)
    | Acquire.unsupported =>
        (st, [REvent.error "Not supported on your browser!"], none)

/-- Method `getMediaRecorder()`: resolves with the cached recorder, or
acquires the stream and constructs a fresh (inactive) MediaRecorder with the
dataavailable / start / stop listeners attached; a stream failure is
propagated as rejection. -/
def getMediaRecorder (st : RecorderState) (env : Acquire) :
    RecorderState × List REvent × Option MRec :=
  match st.mediaRecorder with
  | some r => (st, [], some r)
  | none =>
    match getMediaStream st env with
    | (st1, evs, some _) =>
        ({ st1 with mediaRecorder := some { state := MRState.inactive } }, evs,
          some { state := MRState.inactive })
    | (st1, evs, none) => (st1, evs, none)

/-- Listener `onDataAvailable(e)`: appends `e.data` to `recordedChunks` only
when `e.data.size > 0`, then calls `addTimer(this.timeslice)`
unconditionally. -/
def onDataAvailable (st : RecorderState) (data : List Nat) :
    RecorderState × List REvent :=
  let st' :=
    if data.length > 0 then
      { st with recordedChunks := st.recordedChunks ++ [data] }
    else st
  addTimer st' st'.timeslice

/-- Method `startRecording()`: obtains the recorder, resets `timer` to 0,
emits the timer string via `addTimer(0)`, clears `recordedChunks`, then calls
the platform `mediaRecorder.start(this.timeslice)`. The platform dispatches
the `start` event (listener `onStarted`) only when the recorder was inactive;
from any other state `start` throws InvalidStateError, which rejects the
chain and is only logged by the `.catch`. A rejected `getMediaRecorder` is
likewise only logged. -/
def startRecording (st : RecorderState) (env : Acquire) :
    RecorderState × List REvent :=
  match getMediaRecorder st env with
  | (st1, evs, none) => (st1, evs)
  | (st1, evs, some r) =>
    let st2 := { st1 with timer := 0 }
    let p := addTimer st2 0
    let st3 := { p.1 with recordedChunks := [] }
    if r.state = MRState.inactive then
      ({ st3 with mediaRecorder := some { state := MRState.recording } },
        evs ++ p.2 ++ [REvent.started])
    else
      (st3, evs ++ p.2)

/-- Method `togglePauseRecording()`: obtains the recorder (acquiring stream
and handle if absent); from paused it resumes and fires
`onTogglePaused(false)`, from a non-inactive state it pauses and fires
`onTogglePaused(true)`, otherwise it does nothing further. A rejection of
`getMediaRecorder` has no handler here, so nothing further happens. -/
def togglePauseRecording (st : RecorderState) (env : Acquire) :
    RecorderState × List REvent :=
  match getMediaRecorder st env with
  | (st1, evs, none) => (st1, evs)
  | (st1, evs, some r) =>
    if r.state = MRState.paused then
      ({ st1 with mediaRecorder := some { state := MRState.recording } },
        evs ++ [REvent.togglePaused false])
    else if r.state ≠ MRState.inactive then
      ({ st1 with mediaRecorder := some { state := MRState.paused } },
        evs ++ [REvent.togglePaused true])
    else
      (st1, evs)

/-- Method `stopRecording()`: obtains the recorder and calls the platform
`mediaRecorder.stop()`. From recording or paused the platform transitions to
inactive and dispatches the `stop` event, whose listener (installed in
`getMediaRecorder`) builds `new Blob(recordedChunks, 'audio/ogg; codecs=opus')`
and fires `onStopped` with it. From inactive the platform call throws and the
rejection is unhandled. -/
def stopRecording (st : RecorderState) (env : Acquire) :
    RecorderState × List REvent :=
  match getMediaRecorder st env with
  | (st1, evs, none) => (st1, evs)
  | (st1, evs, some r) =>
    if r.state = MRState.inactive then
      (st1, evs)
    else
      ({ st1 with mediaRecorder := some { state := MRState.inactive } },
        evs ++ [REvent.stopped
          { data := st1.recordedChunks.flatten, type := "audio/ogg; codecs=opus" }])

/-- Method `toggleRecording()`: obtains the recorder and dispatches —
`startRecording()` when its state is inactive, `stopRecording()` otherwise. -/
def toggleRecording (st : RecorderState) (env : Acquire) :
    RecorderState × List REvent :=
  match getMediaRecorder st env with
  | (st1, evs, none) => (st1, evs)
  | (st1, evs, some r) =>
    if r.state = MRState.inactive then
      let p := startRecording st1 env
      (p.1, evs ++ p.2)
    else
      let p := stopRecording st1 env
      (p.1, evs ++ p.2)

/-- Recognizer for `onStarted` notifications in an event trace. -/
def isStartedEv : REvent → Bool
  | REvent.started => true
  | _ => false

/-- Recognizer for `onStopped` notifications in an event trace. -/
def isStoppedEv : REvent → Bool
  | REvent.stopped _ => true
  | _ => false

/-- Recognizer for `onError` notifications in an event trace. -/
def isErrorEv : REvent → Bool
  | REvent.error _ => true
  | _ => false

/-- Recognizer for `onTogglePaused` notifications in an event trace. -/
def isTogglePausedEv : REvent → Bool
  | REvent.togglePaused _ => true
  | _ => false

/-- The MediaRecorder state with which `getMediaRecorder` resolves (`none`
when it rejects): the cached recorder's state, or inactive for a freshly
constructed one. -/
def resolvedRecorder (st : RecorderState) (env : Acquire) : Option MRState :=
  ((getMediaRecorder st env).2.2).map MRec.state

/-- Hypothesis under which `getMediaRecorder` resolves rather than rejects. -/
def resolvesRecorder (st : RecorderState) (env : Acquire) : Prop :=
  st.mediaRecorder.isSome = true ∨ st.mediaStream.isSome = true ∨
    ∃ i, env = Acquire.granted i

/-! ### Ui (ui module of the tool) -/

/-- `Ui.status.EMPTY`. -/
def statusEMPTY : String := "empty"

/-- `Ui.status.UPLOADING`. -/
def statusUPLOADING : String := "loading"

/-- `Ui.status.FILLED`. -/
def statusFILLED : String := "filled"

/-- A JSON-object value: field names mapped to string values, in insertion
order. Used for the `file` objects of tool data and upload responses, whose
extra fields are opaque to the tool. -/
abbrev FileObj := List (String × String)

/-- Visual state of the Ui component: `status` is the `voice-tool--*`
modifier currently set on the wrapper (`none` before the first
`toggleStatus` call), `audioElSrc` is the `src` of the AUDIO element
appended by `fillVoice` (which carries the pending `loadeddata`
listener). -/
structure UiState where
  status : Option String
  audioElSrc : Option String
deriving DecidableEq, Repr

/-- Ui state after the Ui constructor: no status modifier class is set and
no audio element exists yet. -/
def initialUi : UiState :=
  { status := none, audioElSrc := none }

/-- Method `Ui.toggleStatus(status)`: leaves exactly the given modifier
class set on the wrapper. -/
def toggleStatus (ui : UiState) (status : String) : UiState :=
  { ui with status := some status }

/-- Method `Ui.render(toolData)`: EMPTY when `toolData.file` is absent or
has no keys, otherwise UPLOADING. -/
def uiRender (ui : UiState) (toolDataFile : Option FileObj) : UiState :=
  match toolDataFile with
  | none => toggleStatus ui statusEMPTY
  | some f =>
    if f.length = 0 then toggleStatus ui statusEMPTY
    else toggleStatus ui statusUPLOADING

/-- Method `Ui.fillVoice(url)`: creates the AUDIO element with the given
`src`, registers its `loadeddata` listener, and appends it; the status is
not changed here. -/
def fillVoice (ui : UiState) (url : String) : UiState :=
  { ui with audioElSrc := some url }

/-- The `loadeddata` listener registered by `fillVoice`: fires only when the
audio element exists and its source has loaded, and toggles the FILLED
status. -/
def audioLoadedData (ui : UiState) : UiState :=
  match ui.audioElSrc with
  | some _ => toggleStatus ui statusFILLED
  | none => ui

/-! ### Controller VoiceRecord (index module of the tool) -/

/-- A JS value as it can appear in the `success` field of an upload
response: a boolean, a number (the documented format uses 0/1), or
undefined (field absent). -/
inductive JVal
  | jbool (b : Bool)
  | jnum (n : Int)
  | jundef
deriving DecidableEq, Repr

/-- JS truthiness of a `JVal`. -/
def truthy : JVal → Bool
  | JVal.jbool b => b
  | JVal.jnum n => n ≠ 0
  | JVal.jundef => false

/-- An upload response `{success, file}` as consumed by
`VoiceRecord.onUpload`; `file = none` models an absent `file` field. -/
structure UploadResponse where
  success : JVal
  file : Option FileObj
deriving DecidableEq, Repr

/-- JSON.stringify escaping for the characters that need it in a JSON
string. -/
def jsonEscapeChar (c : Char) : String :=
  if c = '"' then "\\\"" else if c = '\\' then "\\\\" else String.mk [c]

/-- JSON string serialization: quotes plus escaping. -/
def jsonString (s : String) : String :=
  "\"" ++ String.join (s.toList.map jsonEscapeChar) ++ "\""

/-- JSON.stringify of a `JVal` that is present (not undefined). -/
def serializeJVal : JVal → String
  | JVal.jbool true => "true"
  | JVal.jbool false => "false"
  | JVal.jnum n => toString n
  | JVal.jundef => ""

/-- JSON.stringify of a file object, fields in insertion order. -/
def serializeFileObj (f : FileObj) : String :=
  "\x7b" ++
    String.intercalate ","
      (f.map fun kv => jsonString kv.1 ++ ":" ++ jsonString kv.2) ++
  "\x7d"

/-- JSON.stringify of an upload response: keys `success` then `file` in the
shape the backend documents; a key holding undefined is omitted. -/
def serializeResponse (r : UploadResponse) : String :=
  let successPart :=
    match r.success with
    | JVal.jundef => []
    | v => [jsonString "success" ++ ":" ++ serializeJVal v]
  let filePart :=
    match r.file with
    | none => []
    | some f => [jsonString "file" ++ ":" ++ serializeFileObj f]
  "\x7b" ++ String.intercalate "," (successPart ++ filePart) ++ "\x7d"

/-- Persisted state of the controller: `this._data`. The `data` setter only
ever writes the `file` key, so `_data` is its `file` field; `none` models
the fresh `this._data = ` empty object of the constructor, before any
`file` key exists. -/
structure CState where
  dataFile : Option FileObj
deriving DecidableEq, Repr

/-- Collaborator calls made by the controller: UI manipulations, the
notifier, entry into `uploadingFailed`, and the three Uploader operations. -/
inductive CEvent
  | fillVoiceCall (url : String)
  | uploadingFailedCall (errorText : String)
  | notifyError (message : String)
  | uiTogglePaused (isPaused : Bool)
  | uiSetActive (isActive : Bool)
  | uiHidePreloader
  | uiShowPreloader (src : String)
  | uploaderUploadByFile
  | uploaderUploadByUrl (url : String)
  | uploaderUploadAudioBlob
deriving DecidableEq, Repr

/-- Controller plus the Ui it owns. -/
structure Widget where
  ctrl : CState
  ui : UiState
deriving DecidableEq, Repr

/-- Field lookup on a JSON object (first binding wins, as JS keys are
unique). -/
def lookupField (f : FileObj) (k : String) : Option String :=
  (f.find? fun kv => kv.1 = k).map Prod.snd

/-- Setter `set audio(file)`: `this._data.file = file || ` empty object;
when `file && file.url` is truthy (a present, non-empty url string) it calls
`this.ui.fillVoice(file.url)`. -/
def setAudio (w : Widget) (file : Option FileObj) : Widget × List CEvent :=
  let w1 : Widget := { w with ctrl := { dataFile := some (file.getD []) } }
  match file with
  | none => (w1, [])
  | some f =>
    match lookupField f "url" with
    | none => (w1, [])
    | some u =>
      if u = "" then (w1, [])
      else ({ w1 with ui := fillVoice w1.ui u }, [CEvent.fillVoiceCall u])

/-- Setter `set data(data)`: `this.audio = data.file`. -/
def setData (w : Widget) (dataFile : Option FileObj) : Widget × List CEvent :=
  setAudio w dataFile

/-- Constructor tail relevant to persisted data: `this._data = ` empty
object, then `this.data = data`, over a freshly constructed Ui. -/
def constructWidget (dataFile : Option FileObj) : Widget × List CEvent :=
  setData { ctrl := { dataFile := none }, ui := initialUi } dataFile

/-- Method `render()`: `this.ui.render(this.data)`. -/
def renderWidget (w : Widget) : Widget :=
  { w with ui := uiRender w.ui w.ctrl.dataFile }

/-- Method `save()`: returns `this.data`, i.e. `this._data`. -/
def save (w : Widget) : Option FileObj :=
  w.ctrl.dataFile

/-- Method `uploadingFailed(errorText)`: logs, shows one notifier error,
then `ui.togglePaused(false)`, `ui.setActive(false)`, `ui.hidePreloader()`
(which resets the visual status to EMPTY). `this._data` is not touched. -/
def uploadingFailed (w : Widget) (errorText : String) : Widget × List CEvent :=
  ({ w with ui := toggleStatus w.ui statusEMPTY },
   [CEvent.uploadingFailedCall errorText,
    CEvent.notifyError "Couldn’t upload audio. Please try another.",
    CEvent.uiTogglePaused false,
    CEvent.uiSetActive false,
    CEvent.uiHidePreloader])

/-- Method `onUpload(response)`: on `response.success && response.file`
stores the file via the audio setter; otherwise calls `uploadingFailed`
with `'incorrect response: ' + JSON.stringify(response)`. -/
def onUpload (w : Widget) (resp : UploadResponse) : Widget × List CEvent :=
  if truthy resp.success && resp.file.isSome then
    setAudio w resp.file
  else
    uploadingFailed w ("incorrect response: " ++ serializeResponse resp)

/-- Callback `onRecorderStopped(blob)`: delegates the blob to
`this.uploader.uploadAudioBlob`. -/
def onRecorderStopped (w : Widget) : Widget × List CEvent :=
  (w, [CEvent.uploaderUploadAudioBlob])

/-- Method `uploadFile(file)`: delegates to `this.uploader.uploadByFile`. -/
def uploadFile (w : Widget) : Widget × List CEvent :=
  (w, [CEvent.uploaderUploadByFile])

/-- Method `uploadUrl(url)`: shows the preloader (status UPLOADING) and
delegates to `this.uploader.uploadByUrl`. -/
def uploadUrl (w : Widget) (url : String) : Widget × List CEvent :=
  ({ w with ui := toggleStatus w.ui statusUPLOADING },
   [CEvent.uiShowPreloader url, CEvent.uploaderUploadByUrl url])

/-- Recognizer for Uploader operations in a controller event trace. -/
def isUploaderCall : CEvent → Bool
  | CEvent.uploaderUploadByFile => true
  | CEvent.uploaderUploadByUrl _ => true
  | CEvent.uploaderUploadAudioBlob => true
  | _ => false

/-- Recognizer for `uploadingFailed` invocations in a controller event
trace. -/
def isUploadingFailedCall : CEvent → Bool
  | CEvent.uploadingFailedCall _ => true
  | _ => false

/-! ### Helper lemmas -/

/-- Exhaustive description of `getMediaRecorder`: it resolves with the
cached recorder, or constructs a fresh inactive one (acquiring or reusing
the stream), or rejects after exactly one `onError`, leaving the state
untouched; rejection happens only when acquisition is not granted. -/
theorem getMediaRecorder_cases (st : RecorderState) (env : Acquire) :
    (∃ r, st.mediaRecorder = some r ∧ getMediaRecorder st env = (st, [], some r)) ∨
    (∃ i, st.mediaRecorder = none ∧
      getMediaRecorder st env =
        ({ st with mediaStream := some i,
                   mediaRecorder := some { state := MRState.inactive } },
          [], some { state := MRState.inactive })) ∨
    (∃ msg, st.mediaRecorder = none ∧ st.mediaStream = none ∧
      (∀ i, env ≠ Acquire.granted i) ∧
      getMediaRecorder st env = (st, [REvent.error msg], none)) := by
  obtain ⟨ms, mr, t, ch, ts⟩ := st
  cases mr with
  | some r => exact Or.inl ⟨r, rfl, rfl⟩
  | none =>
    cases ms with
    | some s => exact Or.inr (Or.inl ⟨s, rfl, rfl⟩)
    | none =>
      cases env with
      | granted i => exact Or.inr (Or.inl ⟨i, rfl, rfl⟩)
      | denied e =>
          exact Or.inr (Or.inr ⟨_, rfl, rfl, fun i h => Acquire.noConfusion h, rfl⟩)
      | unsupported =>
          exact Or.inr (Or.inr ⟨_, rfl, rfl, fun i h => Acquire.noConfusion h, rfl⟩)

/-- The audio setter always stores the given file object unchanged in
`this._data.file`. -/
theorem setAudio_dataFile (w : Widget) (f : FileObj) :
    (setAudio w (some f)).1.ctrl.dataFile = some f := by
  unfold setAudio
  rcases h : lookupField f "url" with _ | u
  · simp [h]
  · by_cases hu : u = "" <;> simp [h, hu]

/-- Computation of `startRecording` when the recorder handle is cached and
inactive. -/
theorem startRecording_cached (st : RecorderState) (env : Acquire) (r : MRec)
    (h : st.mediaRecorder = some r) (hr : r.state = MRState.inactive) :
    startRecording st env =
      ({ st with
          timer := 0
          recordedChunks := []
          mediaRecorder := some { state := MRState.recording } },
       [REvent.updateTimer "00:00", REvent.started]) := by
  obtain ⟨ms, mr, t, ch, ts⟩ := st
  obtain ⟨rs⟩ := r
  cases h
  cases hr
  simp [startRecording, getMediaRecorder, getMediaStream, addTimer, formatTimer,
    zeroPad]
  rfl

/-- Computation of `stopRecording` when the recorder handle is cached and
not inactive. -/
theorem stopRecording_cached (st : RecorderState) (env : Acquire) (r : MRec)
    (h : st.mediaRecorder = some r) (hr : ¬ r.state = MRState.inactive) :
    stopRecording st env =
      ({ st with mediaRecorder := some { state := MRState.inactive } },
       [REvent.stopped
         { data := st.recordedChunks.flatten, type := "audio/ogg; codecs=opus" }]) := by
  obtain ⟨ms, mr, t, ch, ts⟩ := st
  obtain ⟨rs⟩ := r
  cases h
  unfold stopRecording getMediaRecorder
  simp [hr]

/-- Computation of `toggleRecording` from the resolution of
`getMediaRecorder`. -/
theorem toggleRecording_resolved (st st1 : RecorderState) (env : Acquire)
    (evs : List REvent) (r : MRec)
    (heq : getMediaRecorder st env = (st1, evs, some r)) :
    toggleRecording st env =
      if r.state = MRState.inactive then
        ((startRecording st1 env).1, evs ++ (startRecording st1 env).2)
      else
        ((stopRecording st1 env).1, evs ++ (stopRecording st1 env).2) := by
  unfold toggleRecording
  rw [heq]

/-! ### Claims -/

/-- Claim C4, counterexample: `togglePauseRecording` invoked from Idle does
not leave the capture stream and recorder handles unacquired — with a
granted acquisition it acquires the stream and creates the (inactive)
recorder handle, and on an unsupported platform it fires the `onError`
collaborator. -/
theorem togglePause_idle_acquires_counterexample :
    (togglePauseRecording initialRecorder (Acquire.granted 0)).1.mediaStream = some 0 ∧
    (togglePauseRecording initialRecorder (Acquire.granted 0)).1.mediaRecorder =
      some { state := MRState.inactive } ∧
    (togglePauseRecording initialRecorder Acquire.unsupported).2 =
      [REvent.error "Not supported on your browser!"] := by
  refine ⟨rfl, rfl, rfl⟩

/-- Claim C4, amended: `togglePauseRecording` invoked while the recorder is
Idle does not throw, fires no `onTogglePaused`, and leaves the timer and
chunk sequence unchanged with any created recorder handle still inactive;
however it lazily acquires the capture stream and creates the recorder
handle when acquisition succeeds (with no events at all), and fires exactly
one `onError` when acquisition fails. -/
theorem togglePause_idle_amended (env : Acquire) :
    (togglePauseRecording initialRecorder env).2.filter isTogglePausedEv = [] ∧
    (togglePauseRecording initialRecorder env).1.timer = 0 ∧
    (togglePauseRecording initialRecorder env).1.recordedChunks = [] ∧
    (∀ m, (togglePauseRecording initialRecorder env).1.mediaRecorder = some m →
      m.state = MRState.inactive) ∧
    (∀ i, env = Acquire.granted i →
      (togglePauseRecording initialRecorder env).1.mediaStream = some i ∧
      (togglePauseRecording initialRecorder env).2 = []) ∧
    ((∀ i, env ≠ Acquire.granted i) →
      ((togglePauseRecording initialRecorder env).2.filter isErrorEv).length = 1 ∧
      (togglePauseRecording initialRecorder env).1 = initialRecorder) := by
  cases env with
  | granted i =>
      refine ⟨rfl, rfl, rfl, ?_, ?_, ?_⟩
      · intro m hm
        have h2 : (some { state := MRState.inactive } : Option MRec) = some m := hm
        cases h2
        rfl
      · intro j hj
        cases hj
        exact ⟨rfl, rfl⟩
      · intro h
        exact absurd rfl (h i)
  | denied e =>
      refine ⟨rfl, rfl, rfl, ?_, ?_, fun _ => ⟨rfl, rfl⟩⟩
      · intro m hm
        have h2 : (none : Option MRec) = some m := hm
        exact Option.noConfusion h2
      · intro j hj
        exact absurd hj (fun h => Acquire.noConfusion h)
  | unsupported =>
      refine ⟨rfl, rfl, rfl, ?_, ?_, fun _ => ⟨rfl, rfl⟩⟩
      · intro m hm
        have h2 : (none : Option MRec) = some m := hm
        exact Option.noConfusion h2
      · intro j hj
        exact absurd hj (fun h => Acquire.noConfusion h)

/-- Claim C4, witness: the amended theorem applied at a granted
acquisition. -/
theorem togglePause_idle_amended_witness :
    (togglePauseRecording initialRecorder (Acquire.granted 5)).1.mediaStream = some 5 ∧
    (togglePauseRecording initialRecorder (Acquire.granted 5)).2 = [] :=
  (togglePause_idle_amended (Acquire.granted 5)).2.2.2.2.1 5 rfl

/-- Claim C5: from any prior state from which `start()` is valid (no
recorder handle yet, or a cached inactive one) and in which
`getMediaRecorder` resolves, `startRecording` leaves the elapsed timer at 0
and the chunk sequence empty, with the recorder now recording — regardless
of leftover `timer` or `recordedChunks` values. -/
theorem startRecording_resets (st : RecorderState) (env : Acquire)
    (hvalid : st.mediaRecorder = none ∨
      st.mediaRecorder = some { state := MRState.inactive })
    (hres : resolvesRecorder st env) :
    (startRecording st env).1.timer = 0 ∧
    (startRecording st env).1.recordedChunks = [] ∧
    (startRecording st env).1.mediaRecorder =
      some { state := MRState.recording } := by
  rcases getMediaRecorder_cases st env with ⟨r, hr, heq⟩ | ⟨i, _, heq⟩ |
    ⟨msg, hmr, hms, hng, _⟩
  · rcases hvalid with h | h
    · rw [h] at hr; exact Option.noConfusion hr
    · rw [h] at hr
      injection hr with hr'
      unfold startRecording
      rw [heq, ← hr']
      simp [addTimer]
  · unfold startRecording
    rw [heq]
    simp [addTimer]
  · rcases hres with h | h | ⟨i, h⟩
    · rw [hmr] at h; exact Bool.noConfusion h
    · rw [hms] at h; exact Bool.noConfusion h
    · exact absurd h (hng i)

/-- Claim C5, witness: applied to a Stopped recorder with leftover elapsed
time and chunks. -/
theorem startRecording_resets_witness :
    (startRecording
      { mediaStream := none, mediaRecorder := some { state := MRState.inactive },
        timer := 7000, recordedChunks := [[1], [2, 3]], timeslice := 1000 }
      Acquire.unsupported).1.timer = 0 ∧
    (startRecording
      { mediaStream := none, mediaRecorder := some { state := MRState.inactive },
        timer := 7000, recordedChunks := [[1], [2, 3]], timeslice := 1000 }
      Acquire.unsupported).1.recordedChunks = [] ∧
    (startRecording
      { mediaStream := none, mediaRecorder := some { state := MRState.inactive },
        timer := 7000, recordedChunks := [[1], [2, 3]], timeslice := 1000 }
      Acquire.unsupported).1.mediaRecorder = some { state := MRState.recording } :=
  startRecording_resets _ _ (Or.inr rfl) (Or.inl rfl)

/-- Claim C6: when `stopRecording` finalizes a session (recorder cached and
recording or paused), the `onStopped` collaborator is notified exactly once
— the whole event trace is that single notification — with the
concatenation of the accumulated chunks in emission order tagged
`audio/ogg; codecs=opus`, and the recorder transitions to the inactive
(Stopped) state. -/
theorem stopRecording_finalizes (st : RecorderState) (env : Acquire) (m : MRec)
    (hm : st.mediaRecorder = some m)
    (hactive : m.state = MRState.recording ∨ m.state = MRState.paused) :
    (stopRecording st env).2 =
      [REvent.stopped
        { data := st.recordedChunks.flatten, type := "audio/ogg; codecs=opus" }] ∧
    (stopRecording st env).1.mediaRecorder = some { state := MRState.inactive } := by
  have hne : ¬ m.state = MRState.inactive := by
    rcases hactive with h | h <;> simp [h]
  unfold stopRecording getMediaRecorder
  rw [hm]
  simp [hne]

/-- Claim C7: for every elapsed time of k accumulated 1000 ms slices, the
formatted timer string is the zero-padded-to-2 minutes `floor(t/1000/60)`,
a colon, and the zero-padded-to-2 seconds `t/1000 mod 60`; in particular
0 ms formats as "00:00" and 65000 ms as "01:05", and `addTimer` emits
exactly that string through `onUpdateTimer`. -/
theorem timer_format (k : Nat) :
    formatTimer (1000 * k) = zeroPad (k / 60) 2 ++ ":" ++ zeroPad (k % 60) 2 ∧
    formatTimer 0 = "00:00" ∧
    formatTimer 65000 = "01:05" ∧
    (∀ st slice, (addTimer st slice).2 =
      [REvent.updateTimer (formatTimer (st.timer + slice))]) := by
  refine ⟨?_, rfl, rfl, fun st slice => rfl⟩
  simp only [formatTimer]
  rw [Nat.mul_div_cancel_left k (by norm_num : (0 : Nat) < 1000)]

/-- Claim C8: `toggleRecording` dispatches on the recorder's state — if
`getMediaRecorder` resolves inactive (Idle/Stopped) it starts, in every
other resolved state (recording or paused) it stops; and toggled twice from
Idle with a granted acquisition it ends Stopped (inactive) having passed
through exactly one recording interval: one `onStarted` and one `onStopped`
across the two calls. -/
theorem toggleRecording_dispatch (st : RecorderState) (env : Acquire) :
    (resolvedRecorder st env = some MRState.inactive →
      (toggleRecording st env).1.mediaRecorder =
        some { state := MRState.recording } ∧
      ((toggleRecording st env).2.filter isStartedEv).length = 1 ∧
      ((toggleRecording st env).2.filter isStoppedEv).length = 0) ∧
    ((resolvedRecorder st env = some MRState.recording ∨
      resolvedRecorder st env = some MRState.paused) →
      (toggleRecording st env).1.mediaRecorder =
        some { state := MRState.inactive } ∧
      ((toggleRecording st env).2.filter isStoppedEv).length = 1 ∧
      ((toggleRecording st env).2.filter isStartedEv).length = 0) ∧
    (∀ i,
      (toggleRecording initialRecorder (Acquire.granted i)).1.mediaRecorder =
        some { state := MRState.recording } ∧
      (toggleRecording (toggleRecording initialRecorder (Acquire.granted i)).1
        (Acquire.granted i)).1.mediaRecorder =
          some { state := MRState.inactive } ∧
      (((toggleRecording initialRecorder (Acquire.granted i)).2 ++
        (toggleRecording (toggleRecording initialRecorder (Acquire.granted i)).1
          (Acquire.granted i)).2).filter isStartedEv).length = 1 ∧
      (((toggleRecording initialRecorder (Acquire.granted i)).2 ++
        (toggleRecording (toggleRecording initialRecorder (Acquire.granted i)).1
          (Acquire.granted i)).2).filter isStoppedEv).length = 1) := by
  refine ⟨?_, ?_, ?_⟩
  · intro h
    rcases getMediaRecorder_cases st env with ⟨r, hr, heq⟩ | ⟨i, hmr, heq⟩ |
      ⟨msg, hmr, hms, hng, heq⟩
    · have hrs : r.state = MRState.inactive := by
        unfold resolvedRecorder at h
        rw [heq] at h
        simpa using h
      rw [toggleRecording_resolved st st env [] r heq, if_pos hrs,
        startRecording_cached st env r hr hrs]
      exact ⟨rfl, rfl, rfl⟩
    · rw [toggleRecording_resolved st _ env [] { state := MRState.inactive } heq,
        if_pos rfl,
        startRecording_cached _ env { state := MRState.inactive } rfl rfl]
      exact ⟨rfl, rfl, rfl⟩
    · unfold resolvedRecorder at h
      rw [heq] at h
      simp at h
  · intro h
    rcases getMediaRecorder_cases st env with ⟨r, hr, heq⟩ | ⟨i, hmr, heq⟩ |
      ⟨msg, hmr, hms, hng, heq⟩
    · have hrs : ¬ r.state = MRState.inactive := by
        unfold resolvedRecorder at h
        rw [heq] at h
        rcases h with h | h <;> simp at h <;> simp [h]
      rw [toggleRecording_resolved st st env [] r heq, if_neg hrs,
        stopRecording_cached st env r hr hrs]
      exact ⟨rfl, rfl, rfl⟩
    · unfold resolvedRecorder at h
      rw [heq] at h
      rcases h with h | h <;> simp at h
    · unfold resolvedRecorder at h
      rw [heq] at h
      rcases h with h | h <;> simp at h
  · intro i
    refine ⟨rfl, ?_, ?_, ?_⟩ <;>
      rw [toggleRecording_resolved initialRecorder
            { mediaStream := some i
              mediaRecorder := some { state := MRState.inactive }
              timer := 0
              recordedChunks := []
              timeslice := 1000 }
            (Acquire.granted i) [] { state := MRState.inactive } rfl,
          if_pos rfl,
          startRecording_cached _ (Acquire.granted i)
            { state := MRState.inactive } rfl rfl] <;>
      rfl

/-- Claim C8, witness: the dispatch applied to a cached paused recorder,
which `toggle` stops. -/
theorem toggleRecording_dispatch_witness :
    (toggleRecording
      { mediaStream := some 0, mediaRecorder := some { state := MRState.paused },
        timer := 2000, recordedChunks := [[9]], timeslice := 1000 }
      Acquire.unsupported).1.mediaRecorder = some { state := MRState.inactive } ∧
    ((toggleRecording
      { mediaStream := some 0, mediaRecorder := some { state := MRState.paused },
        timer := 2000, recordedChunks := [[9]], timeslice := 1000 }
      Acquire.unsupported).2.filter isStoppedEv).length = 1 ∧
    ((toggleRecording
      { mediaStream := some 0, mediaRecorder := some { state := MRState.paused },
        timer := 2000, recordedChunks := [[9]], timeslice := 1000 }
      Acquire.unsupported).2.filter isStartedEv).length = 0 :=
  (toggleRecording_dispatch
    { mediaStream := some 0, mediaRecorder := some { state := MRState.paused },
      timer := 2000, recordedChunks := [[9]], timeslice := 1000 }
    Acquire.unsupported).2.1 (Or.inr rfl)

/-- Claim C9: when the capture stream cannot be acquired (denied or
unsupported), a `toggleRecording` trigger from Idle fires the `onError`
collaborator exactly once, leaves the state exactly as it was (no stream or
recorder handle, no chunks), and performs no retry — while a subsequent
user re-trigger with a granted acquisition acquires the stream and starts
recording. -/
theorem acquire_failure_stays_idle (st : RecorderState) (env : Acquire)
    (hms : st.mediaStream = none) (hmr : st.mediaRecorder = none)
    (hfail : ∀ i, env ≠ Acquire.granted i) :
    ((toggleRecording st env).2.filter isErrorEv).length = 1 ∧
    (toggleRecording st env).1 = st ∧
    (∀ i,
      (toggleRecording (toggleRecording st env).1
        (Acquire.granted i)).1.mediaRecorder =
          some { state := MRState.recording } ∧
      (toggleRecording (toggleRecording st env).1
        (Acquire.granted i)).1.mediaStream = some i) := by
  obtain ⟨ms, mr, t, ch, ts⟩ := st
  cases hms
  cases hmr
  cases env with
  | granted i => exact absurd rfl (hfail i)
  | denied e => exact ⟨rfl, rfl, fun i => ⟨rfl, rfl⟩⟩
  | unsupported => exact ⟨rfl, rfl, fun i => ⟨rfl, rfl⟩⟩

/-- Claim C9, witness: an unsupported platform from the initial state. -/
theorem acquire_failure_stays_idle_witness :
    ((toggleRecording initialRecorder Acquire.unsupported).2.filter
      isErrorEv).length = 1 ∧
    (toggleRecording initialRecorder Acquire.unsupported).1 = initialRecorder :=
  ⟨(acquire_failure_stays_idle initialRecorder Acquire.unsupported rfl rfl
      (fun _i h => Acquire.noConfusion h)).1,
   (acquire_failure_stays_idle initialRecorder Acquire.unsupported rfl rfl
      (fun _i h => Acquire.noConfusion h)).2.1⟩

/-- Claim C10: on each `dataavailable` tick the chunk is appended exactly
when its size is strictly positive, while the timer advances by one
timeslice (1000 ms) unconditionally and the updated display string is
emitted, so elapsed time counts every tick including empty ones. -/
theorem dataavailable_tick (st : RecorderState) (data : List Nat) :
    (0 < data.length →
      (onDataAvailable st data).1.recordedChunks = st.recordedChunks ++ [data]) ∧
    (data.length = 0 →
      (onDataAvailable st data).1.recordedChunks = st.recordedChunks) ∧
    (onDataAvailable st data).1.timer = st.timer + st.timeslice ∧
    (onDataAvailable st data).2 =
      [REvent.updateTimer (formatTimer (st.timer + st.timeslice))] ∧
    (st.timeslice = 1000 →
      (onDataAvailable st data).1.timer = st.timer + 1000) := by
  have htimer : (onDataAvailable st data).1.timer = st.timer + st.timeslice := by
    unfold onDataAvailable addTimer
    by_cases h : data.length > 0 <;> simp [h]
  refine ⟨?_, ?_, htimer, ?_, fun h1000 => by rw [htimer, h1000]⟩
  · intro h
    unfold onDataAvailable addTimer
    simp [h]
  · intro h0
    have h : ¬ data.length > 0 := by omega
    unfold onDataAvailable addTimer
    simp [h]
  · unfold onDataAvailable addTimer
    by_cases h : data.length > 0 <;> simp [h]

/-- Claim C10, witness: a non-empty tick from the initial state. -/
theorem dataavailable_tick_witness :
    0 < ([5, 6] : List Nat).length ∧
    (onDataAvailable initialRecorder [5, 6]).1.recordedChunks = [] ++ [[5, 6]] ∧
    (onDataAvailable initialRecorder [5, 6]).1.timer = 0 + 1000 :=
  ⟨by decide,
   (dataavailable_tick initialRecorder [5, 6]).1 (by decide),
   (dataavailable_tick initialRecorder [5, 6]).2.2.2.2 rfl⟩

/-- Claim C6, witness: stopping a recording session with two accumulated
chunks. -/
theorem stopRecording_finalizes_witness :
    (stopRecording
      { mediaStream := some 0, mediaRecorder := some { state := MRState.recording },
        timer := 3000, recordedChunks := [[1, 2], [3]], timeslice := 1000 }
      Acquire.unsupported).2 =
      [REvent.stopped { data := [1, 2, 3], type := "audio/ogg; codecs=opus" }] ∧
    (stopRecording
      { mediaStream := some 0, mediaRecorder := some { state := MRState.recording },
        timer := 3000, recordedChunks := [[1, 2], [3]], timeslice := 1000 }
      Acquire.unsupported).1.mediaRecorder = some { state := MRState.inactive } :=
  stopRecording_finalizes _ _ { state := MRState.recording } rfl (Or.inl rfl)

/-- Claim C1: for every upload response of the shape
`success: truthy, file: F`, the controller's `onUpload` stores `F` — with
every opaque extra field untouched — as the persisted block data's `file`
field, so a subsequent `save()` returns it unchanged; in particular for
`F = url: "https://x/a.ogg"` the persisted data is exactly that file
object. -/
theorem onUpload_success_persists (w : Widget) (s : JVal) (f : FileObj)
    (hs : truthy s = true) :
    (onUpload w { success := s, file := some f }).1.ctrl.dataFile = some f ∧
    save (onUpload w { success := s, file := some f }).1 = some f ∧
    save (onUpload { ctrl := { dataFile := none }, ui := initialUi }
        { success := JVal.jbool true, file := some [("url", "https://x/a.ogg")] }).1 =
      some [("url", "https://x/a.ogg")] := by
  have hc : (truthy (UploadResponse.mk s (some f)).success &&
      (UploadResponse.mk s (some f)).file.isSome) = true := by
    simp [hs]
  have h1 : (onUpload w { success := s, file := some f }).1.ctrl.dataFile = some f := by
    rw [onUpload, if_pos hc]
    exact setAudio_dataFile w f
  exact ⟨h1, h1, by decide⟩

/-- Claim C1, witness: a response with `success = 1` and an extra opaque
field persists unchanged. -/
theorem onUpload_success_persists_witness :
    truthy (JVal.jnum 1) = true ∧
    save (onUpload { ctrl := { dataFile := none }, ui := initialUi }
        { success := JVal.jnum 1,
          file := some [("url", "https://x/a.ogg"), ("size", "123")] }).1 =
      some [("url", "https://x/a.ogg"), ("size", "123")] :=
  ⟨by decide,
   (onUpload_success_persists { ctrl := { dataFile := none }, ui := initialUi }
      (JVal.jnum 1) [("url", "https://x/a.ogg"), ("size", "123")]
      (by decide)).2.1⟩

/-- Claim C2: for every upload response with falsy `success` or an absent
`file`, `onUpload` invokes `uploadingFailed` exactly once, with the raw
response JSON-serialized inside the error message, and leaves the persisted
block data untouched. -/
theorem onUpload_failure_once (w : Widget) (r : UploadResponse)
    (h : truthy r.success = false ∨ r.file = none) :
    (onUpload w r).2.filter isUploadingFailedCall =
      [CEvent.uploadingFailedCall ("incorrect response: " ++ serializeResponse r)] ∧
    ((onUpload w r).2.filter isUploadingFailedCall).length = 1 ∧
    (onUpload w r).1.ctrl.dataFile = w.ctrl.dataFile := by
  have hc : ¬ ((truthy r.success && r.file.isSome) = true) := by
    rcases h with h | h <;> simp [h]
  rw [onUpload, if_neg hc]
  exact ⟨rfl, rfl, rfl⟩

/-- Claim C2, witness: the spec's example response `success: false` fires
one `uploadingFailed` carrying the serialized response, and a previously
persisted file survives untouched. -/
theorem onUpload_failure_once_witness :
    (onUpload { ctrl := { dataFile := some [("url", "old")] }, ui := initialUi }
      { success := JVal.jbool false, file := none }).2.filter
        isUploadingFailedCall =
      [CEvent.uploadingFailedCall
        ("incorrect response: " ++
          serializeResponse { success := JVal.jbool false, file := none })] ∧
    (onUpload { ctrl := { dataFile := some [("url", "old")] }, ui := initialUi }
      { success := JVal.jbool false, file := none }).1.ctrl.dataFile =
      some [("url", "old")] :=
  ⟨(onUpload_failure_once
      { ctrl := { dataFile := some [("url", "old")] }, ui := initialUi }
      { success := JVal.jbool false, file := none } (Or.inl rfl)).1,
   (onUpload_failure_once
      { ctrl := { dataFile := some [("url", "old")] }, ui := initialUi }
      { success := JVal.jbool false, file := none } (Or.inl rfl)).2.2⟩

/-- Claim C3, counterexample: constructing the controller with saved data
`file: url: "https://x/a.ogg"` and calling `render()` leaves the widget in
the UPLOADING (loading) visual status — not directly in the FILLED
status the claim asserts. -/
theorem render_presaved_counterexample :
    (renderWidget (constructWidget
      (some [("url", "https://x/a.ogg")])).1).ui.status = some statusUPLOADING ∧
    statusUPLOADING ≠ statusFILLED := by decide

/-- Claim C3, amended: constructing the controller with saved data
`file: url: U` (U non-empty) and calling `render()` invokes no Uploader
operation; the construction itself creates the audio element for `U` via
`fillVoice`, `render()` sets the UPLOADING (loading) status, and the
FILLED status is reached only once that element's `loadeddata` event
fires. -/
theorem render_presaved_amended (U : String) (hU : U ≠ "") :
    (constructWidget (some [("url", U)])).2.filter isUploaderCall = [] ∧
    (renderWidget (constructWidget (some [("url", U)])).1).ui.status =
      some statusUPLOADING ∧
    (renderWidget (constructWidget (some [("url", U)])).1).ui.audioElSrc =
      some U ∧
    (audioLoadedData
      (renderWidget (constructWidget (some [("url", U)])).1).ui).status =
      some statusFILLED := by
  have hl : lookupField [("url", U)] "url" = some U := by
    simp [lookupField]
  have hset : constructWidget (some [("url", U)]) =
      ({ ctrl := { dataFile := some [("url", U)] },
         ui := { status := none, audioElSrc := some U } },
       [CEvent.fillVoiceCall U]) := by
    simp [constructWidget, setData, setAudio, hl, hU, fillVoice, initialUi]
  rw [hset]
  exact ⟨rfl, rfl, rfl, rfl⟩

/-- Claim C3, witness: the amended statement at the spec's example URL. -/
theorem render_presaved_amended_witness :
    "https://x/a.ogg" ≠ "" ∧
    (constructWidget (some [("url", "https://x/a.ogg")])).2.filter
      isUploaderCall = [] ∧
    (audioLoadedData
      (renderWidget (constructWidget
        (some [("url", "https://x/a.ogg")])).1).ui).status =
      some statusFILLED :=
  ⟨by decide,
   (render_presaved_amended "https://x/a.ogg" (by decide)).1,
   (render_presaved_amended "https://x/a.ogg" (by decide)).2.2.2⟩

end VoiceTool
